import Mathlib

/-!
Verification development for the retrying Gemini HTTP client of the
goaider command-line utilities.

The development shallowly embeds:

- the stt command (function getTranscript with its retry loop, the
  calculateBackoff function with int64 duration arithmetic, and the
  per-file skip/read/write driver of the stt function);
- the caption command (function processImage: skip check, retry loop with
  shared mutable response state, after-loop error consolidation, identity
  prepending, artifact write);
- the norfilenames filename normalization substitution.

Machine integers (Go time.Duration is int64 nanoseconds) are modelled as
Int with explicit two-complement wrapping.  The HTTP transport is an
injected function from the call index to the outcome of that call, so the
retry loops become pure fuel-indexed recursions.
-/

/-! ## Wire model shared by both commands

The response structs of the stt command (GeminiResponse, Candidate,
Content, Part, PromptFeedback, SafetyRating).  The caption command
declares its own response structs WITHOUT the promptFeedback field; we
use the one full wire type for both transports and the caption code below
simply never reads promptFeedback, which is observationally the same as
decoding into a struct that lacks the field. -/

namespace Gemini

structure InlineData where
  mimeType : String
  data : String
deriving DecidableEq

structure Part where
  text : String
  inlineData : Option InlineData
deriving DecidableEq

structure Content where
  parts : List Part
deriving DecidableEq

structure SafetyRating where
  category : String
  probability : String
deriving DecidableEq

structure Candidate where
  content : Content
  finishReason : String
  index : Int
  safetyRatings : List SafetyRating
deriving DecidableEq

structure PromptFeedback where
  blockReason : String
  safetyRatings : List SafetyRating
deriving DecidableEq

structure GeminiResponse where
  candidates : List Candidate
  promptFeedback : Option PromptFeedback
deriving DecidableEq

end Gemini

/-- Result of reading and JSON-decoding the body of a 200 response:
io.ReadAll failure, json decode failure, or the decoded value.  For the
caption command (streaming json.NewDecoder) a body read failure also
surfaces as a decode failure. -/
inductive BodyDecode where
  | readFailed
  | decodeFailed
  | decoded (r : Gemini.GeminiResponse)
deriving DecidableEq

/-- Outcome of one HTTP round trip as seen by the client: a transport
level (network) error from client.Do, or a response with a status code,
a raw body string, and the result of decoding that body. -/
inductive CallOutcome where
  | netError
  | httpResp (statusCode : Nat) (body : String) (decode : BodyDecode)
deriving DecidableEq

/-- A transport maps the index of an HTTP call (0-based, equal to the
number of calls already made) to its outcome. -/
def Transport : Type := Nat → CallOutcome

namespace Stt

/-- maxRetries = 4 in the stt command; the loop runs attempt = 0..4, so
five total attempts. -/
def maxRetries : Nat := 4

/-- baseBackoff = 6 seconds, in nanoseconds (time.Duration units). -/
def baseBackoff : Int := 6000000000

/-- maxBackoff = 60 seconds, in nanoseconds. -/
def maxBackoff : Int := 60000000000

/-- Two-complement wrap of a mathematical integer into int64, the
representation of Go time.Duration. -/
def wrap64 (x : Int) : Int :=
  (x + 9223372036854775808) % 18446744073709551616 - 9223372036854775808

/-- Value of the Go expression 1 << n at type int64: shifts by 64 or
more produce 0, smaller shifts wrap (1 << 63 is the minimal int64). -/
def goShlOne (n : Nat) : Int :=
  if 64 ≤ n then 0 else wrap64 ((2 : Int) ^ n)

/-- calculateBackoff from the stt command: backoff := baseBackoff *
(1 << attempt) in int64 arithmetic, capped at maxBackoff when larger,
plus a jitter of jitterMs milliseconds where jitterMs is the value drawn
by rand.Intn(1000) (the randomness source is passed in explicitly). -/
def calculateBackoff (attempt : Nat) (jitterMs : Nat) : Int :=
  let backoff := wrap64 (baseBackoff * goShlOne attempt)
  let capped := if maxBackoff < backoff then maxBackoff else backoff
  wrap64 (capped + wrap64 ((jitterMs : Int) * 1000000))

/-- The last recorded retryable failure, as stored into the lastErr
variable of getTranscript. -/
inductive LastErr where
  | netErr
  | apiStatus (status : Nat) (body : String)
deriving DecidableEq

/-- The error cases returned by getTranscript, one per distinct
fmt.Errorf site. -/
inductive SttError where
  | readBodyFailed
  | unmarshalFailed
  | blocked (reason : String)
  | noContent (body : String)
  | nonRetryableStatus (status : Nat) (body : String)
  | allRetriesFailed (last : Option LastErr)
deriving DecidableEq

/-- The status codes of the retryable switch case of getTranscript:
StatusTooManyRequests, StatusInternalServerError, StatusBadGateway,
StatusServiceUnavailable, StatusGatewayTimeout. -/
def sttRetryableStatus (s : Nat) : Bool :=
  s == 429 || s == 500 || s == 502 || s == 503 || s == 504

/-- Candidate extraction of getTranscript: error when candidates or the
first candidate parts are empty, else the text of the first part. -/
def extractCandidates (body : String) (r : Gemini.GeminiResponse) : Except SttError String :=
  match r.candidates with
  | [] => .error (.noContent body)
  | c :: _ =>
    match c.content.parts with
    | [] => .error (.noContent body)
    | p :: _ => .ok p.text

/-- The 200 branch of getTranscript after a successful decode: blocked
check on promptFeedback.blockReason, then candidate extraction. -/
def extractTranscript (body : String) (r : Gemini.GeminiResponse) : Except SttError String :=
  match r.promptFeedback with
  | some pf =>
    if pf.blockReason ≠ "" then .error (.blocked pf.blockReason)
    else extractCandidates body r
  | none => extractCandidates body r

/-- The retry loop of getTranscript.  The fuel is the number of attempts
still allowed, the second argument the current attempt index, the third
the lastErr variable.  Returns the result together with the number of
HTTP calls made from this point on. -/
def getTranscriptLoop (transport : Transport) :
    Nat → Nat → Option LastErr → Except SttError String × Nat
  | 0, _, lastErr => (.error (.allRetriesFailed lastErr), 0)
  | fuel + 1, attempt, _ =>
    match transport attempt with
    | .netError =>
      let r := getTranscriptLoop transport fuel (attempt + 1) (some .netErr)
      (r.1, r.2 + 1)
    | .httpResp s body d =>
      if s = 200 then
        match d with
        | .readFailed => (.error .readBodyFailed, 1)
        | .decodeFailed => (.error .unmarshalFailed, 1)
        | .decoded resp => (extractTranscript body resp, 1)
      else if sttRetryableStatus s then
        let r := getTranscriptLoop transport fuel (attempt + 1) (some (.apiStatus s body))
        (r.1, r.2 + 1)
      else
        (.error (.nonRetryableStatus s body), 1)

/-- getTranscript: run the loop for maxRetries + 1 attempts starting at
attempt 0 with no recorded error. -/
def getTranscript (transport : Transport) : Except SttError String × Nat :=
  getTranscriptLoop transport (maxRetries + 1) 0 none

/-- Per-item result of the stt batch driver. -/
inductive SttItemRes where
  | skipped
  | ok (transcript : String)
  | failed
deriving DecidableEq

/-- Observable outcome of processing one audio file in the stt command:
final result, number of HTTP calls made, and the content written to the
sibling txt file, if any. -/
structure SttFileOutcome where
  res : SttItemRes
  apiCalls : Nat
  written : Option String
deriving DecidableEq

/-- The per-file body of the stt loop: skip when the txt file exists and
force is unset, fail on read error, call getTranscript, write the
transcript on success. -/
def sttProcessFile (force txtExists readOk : Bool) (transport : Transport) :
    SttFileOutcome :=
  if !force && txtExists then ⟨.skipped, 0, none⟩
  else if !readOk then ⟨.failed, 0, none⟩
  else
    match getTranscript transport with
    | (.ok t, n) => ⟨.ok t, n, some t⟩
    | (.error _, n) => ⟨.failed, n, none⟩

end Stt

/-- ASCII whitespace as trimmed by strings.TrimSpace (the Unicode
spaces beyond ASCII are not modelled). -/
def isASCIISpace (c : Char) : Bool :=
  c == ' ' || c == '\t' || c == '\n' || c == '\x0b' || c == '\x0c' || c == '\r'

/-- strings.TrimSpace: drop leading and trailing whitespace. -/
def trimSpace (s : String) : String :=
  ⟨((s.data.dropWhile isASCIISpace).reverse.dropWhile isASCIISpace).reverse⟩

namespace Caption

/-- maxRetries = 3 in the caption command; the loop is for range
maxRetries, so exactly three iterations. -/
def maxRetries : Nat := 3

/-- The error cases of processImage, one per fmt.Errorf site reachable
from the modelled fragment. -/
inductive CapError where
  | readImageFailed
  | decodeFailed
  | allRetriesFailedNet
  | statusError (status : Nat)
  | emptyCaption
deriving DecidableEq

/-- The per-image observable result of processImage: skipped (txt file
already present), success with the final caption, or an error. -/
inductive CapRes where
  | skipped
  | ok (finalCaption : String)
  | err (e : CapError)
deriving DecidableEq

/-- The shared mutable variables of the retry loop of processImage:
reqErr and resp from the last client.Do call, the geminiResp decode
target, and the number of calls made so far. -/
structure LoopState where
  reqErr : Bool
  resp : Option Nat
  geminiResp : Gemini.GeminiResponse
  calls : Nat
deriving DecidableEq

/-- The zero value of the geminiResp variable before any decode. -/
def zeroGemini : Gemini.GeminiResponse := ⟨[], none⟩

/-- The emptiness test of processImage: no candidates, or no parts in
the first candidate, or an empty text in the first part. -/
def emptyResp (r : Gemini.GeminiResponse) : Bool :=
  match r.candidates with
  | [] => true
  | c :: _ =>
    match c.content.parts with
    | [] => true
    | p :: _ => p.text == ""

/-- The retry loop of processImage.  Each iteration makes one HTTP call
and either continues (network error, 429 or 5xx status, decoded but
empty response), breaks (non-200 status, valid response), or returns a
fatal decode error.  The first component is some fatal error for the
in-loop return, none when the loop ended by break or exhaustion; the
second is the final state of the shared variables.  A decode writes into
the shared geminiResp variable; the transport outcome carries the value
of that variable after the decode. -/
def captionLoop (transport : Transport) : Nat → LoopState → Option CapError × LoopState
  | 0, st => (none, st)
  | fuel + 1, st =>
    match transport st.calls with
    | .netError =>
      captionLoop transport fuel
        { st with reqErr := true, resp := none, calls := st.calls + 1 }
    | .httpResp s _ d =>
      if s = 429 ∨ 500 ≤ s then
        captionLoop transport fuel
          { st with reqErr := false, resp := some s, calls := st.calls + 1 }
      else if s ≠ 200 then
        (none, { st with reqErr := false, resp := some s, calls := st.calls + 1 })
      else
        match d with
        | .readFailed =>
          (some .decodeFailed,
            { st with reqErr := false, resp := some s, calls := st.calls + 1 })
        | .decodeFailed =>
          (some .decodeFailed,
            { st with reqErr := false, resp := some s, calls := st.calls + 1 })
        | .decoded r =>
          if emptyResp r then
            captionLoop transport fuel
              { st with reqErr := false, resp := some s, geminiResp := r,
                        calls := st.calls + 1 }
          else
            (none, { st with reqErr := false, resp := some s, geminiResp := r,
                             calls := st.calls + 1 })

/-- Observable outcome of processImage for one image: final result,
number of HTTP calls made, and the content written to the sibling txt
file, if any. -/
structure PIOutcome where
  res : CapRes
  apiCalls : Nat
  written : Option String
deriving DecidableEq

/-- The caption and write stage at the end of processImage: the final
emptiness check, TrimSpace, identity prepending, and the artifact
write.  trimSpace models strings.TrimSpace (ASCII whitespace). -/
def finishCaption (identity : String) (st : LoopState) : PIOutcome :=
  match st.geminiResp.candidates with
  | [] => ⟨.err .emptyCaption, st.calls, none⟩
  | c :: _ =>
    match c.content.parts with
    | [] => ⟨.err .emptyCaption, st.calls, none⟩
    | p :: _ =>
      if p.text = "" then ⟨.err .emptyCaption, st.calls, none⟩
      else
        let final := if identity ≠ "" then identity ++ ", " ++ trimSpace p.text
                     else trimSpace p.text
        ⟨.ok final, st.calls, some final⟩

/-- The error consolidation after the loop of processImage: a pending
network error first, then a non-200 last status, then the caption and
write stage. -/
def afterLoop (identity : String) (st : LoopState) : PIOutcome :=
  if st.reqErr then ⟨.err .allRetriesFailedNet, st.calls, none⟩
  else
    match st.resp with
    | some s =>
      if s ≠ 200 then ⟨.err (.statusError s), st.calls, none⟩
      else finishCaption identity st
    | none => finishCaption identity st

/-- processImage: skip when the txt file exists and force is unset, fail
on image read error, run the retry loop, then consolidate the shared
variables exactly as the code after the loop does. -/
def processImage (force txtExists readOk : Bool) (identity : String)
    (transport : Transport) : PIOutcome :=
  if !force && txtExists then ⟨.skipped, 0, none⟩
  else if !readOk then ⟨.err .readImageFailed, 0, none⟩
  else
    match captionLoop transport maxRetries ⟨false, none, zeroGemini, 0⟩ with
    | (some e, st) => ⟨.err e, st.calls, none⟩
    | (none, st) => afterLoop identity st

end Caption

/-! ## Batch model for the caption command

One directory item carries the filesystem facts the per-item code
observes (does the sibling txt exist, does the image read succeed) and
its own transport.  A run maps processImage over the items in listing
order and the filesystem gains a txt file exactly for the items whose
artifact was written. -/

structure DirItem where
  txtExists : Bool
  readOk : Bool
  transport : Transport

/-- Process one directory item and return its outcome together with the
item as the next run will see it: the txt file exists afterwards when it
existed before or an artifact was written now. -/
def captionRunItem (force : Bool) (identity : String) (it : DirItem) :
    Caption.PIOutcome × DirItem :=
  let o := Caption.processImage force it.txtExists it.readOk identity it.transport
  (o, { it with txtExists := it.txtExists || o.written.isSome })

/-- One invocation of the caption batch loop over a directory snapshot:
the per-item outcomes in listing order and the updated directory. -/
def captionRun (force : Bool) (identity : String) (items : List DirItem) :
    List Caption.PIOutcome × List DirItem :=
  (items.map (fun it => (captionRunItem force identity it).1),
    items.map (fun it => (captionRunItem force identity it).2))

/-- Total number of HTTP calls of a batch run. -/
def totalCalls (outs : List Caption.PIOutcome) : Nat :=
  (outs.map Caption.PIOutcome.apiCalls).sum

/-! ## The norfilenames substitution -/

namespace Norfilenames

/-- Membership in the character class of the normalization regexp, which
matches every ASCII character outside dash, underscore, dot, letters and
digits: the ranges 00-2C, 2F, 3A-40, 5B-5E, 60 and 7B-7F. -/
def isSpecialChar (c : Char) : Bool :=
  let n := c.toNat
  n ≤ 0x2C || n == 0x2F || (0x3A ≤ n && n ≤ 0x40) ||
    (0x5B ≤ n && n ≤ 0x5E) || n == 0x60 || (0x7B ≤ n && n ≤ 0x7F)

/-- Replacement of one character: matched characters become an
underscore, every other character is kept. -/
def normalizeChar (c : Char) : Char :=
  if isSpecialChar c then '_' else c

/-- ReplaceAllString of the single-character class with an underscore:
every rune of the name is replaced independently. -/
def normalizeName (s : String) : String :=
  ⟨s.data.map normalizeChar⟩

end Norfilenames

/-! ## Outcome classification used by the theorems -/

/-- Outcomes the stt retry loop treats as retryable: a network error or
a response with one of the five retryable status codes. -/
def sttRetryableOutcome : CallOutcome → Bool
  | .netError => true
  | .httpResp s _ _ => Stt.sttRetryableStatus s

/-- The lastErr value getTranscript records for an outcome taken as
retryable. -/
def lastErrOfOutcome : CallOutcome → Option Stt.LastErr
  | .netError => some .netErr
  | .httpResp s body _ => some (.apiStatus s body)

/-- Outcomes the caption retry loop treats as retryable: a network
error, a 429 or at-least-500 status, or a 200 response whose decoded
value fails the emptiness test. -/
def capRetryableOutcome : CallOutcome → Bool
  | .netError => true
  | .httpResp s _ d =>
    if s = 429 ∨ 500 ≤ s then true
    else if s ≠ 200 then false
    else
      match d with
      | .decoded r => Caption.emptyResp r
      | _ => false

/-- The terminal error the caption after-loop consolidation reports when
the loop exhausted its iterations and the last call had the given
retryable outcome. -/
def capTerminalRes : CallOutcome → Caption.CapRes
  | .netError => .err .allRetriesFailedNet
  | .httpResp s _ _ =>
    if s = 200 then .err .emptyCaption else .err (.statusError s)

/-- Results that are not per-item failures: skipped items and
successes. -/
def okOrSkipped : Caption.CapRes → Bool
  | .skipped => true
  | .ok _ => true
  | .err _ => false

/-! ## Concrete stub transports and responses used by witnesses -/

/-- A stub transport whose every call yields the same outcome. -/
def constTransport (o : CallOutcome) : Transport := fun _ => o

/-- A decoded response carrying one candidate with one text part. -/
def textGemini (text : String) : Gemini.GeminiResponse :=
  ⟨[⟨⟨[⟨text, none⟩]⟩, "", 0, []⟩], none⟩

/-- A decoded response with no candidates, blocked by the safety layer
with the given reason. -/
def blockedGemini (reason : String) : Gemini.GeminiResponse :=
  ⟨[], some ⟨reason, []⟩⟩

/-! ## Helper lemmas -/

theorem normalizeChar_idem (c : Char) :
    Norfilenames.normalizeChar (Norfilenames.normalizeChar c) =
      Norfilenames.normalizeChar c := by
  unfold Norfilenames.normalizeChar
  by_cases h : Norfilenames.isSpecialChar c
  · simp [h, show Norfilenames.isSpecialChar '_' = false by decide]
  · simp [h]

theorem wrap64_eq_self (x : Int) (h1 : -9223372036854775808 ≤ x)
    (h2 : x < 9223372036854775808) : Stt.wrap64 x = x := by
  unfold Stt.wrap64
  omega

/-- Claim C10: the norfilenames substitution (every ASCII character
outside dash, underscore, dot, letters and digits becomes an
underscore) is idempotent, hence a second pass over already-normalized
names proposes no renames.  Confirmed: the replacement character is not
itself in the matched class. -/
theorem norfilenames_normalize_idempotent (s : String) :
    Norfilenames.normalizeName (Norfilenames.normalizeName s) =
      Norfilenames.normalizeName s := by
  have h : ∀ l : List Char,
      (l.map Norfilenames.normalizeChar).map Norfilenames.normalizeChar =
        l.map Norfilenames.normalizeChar := by
    intro l
    induction l with
    | nil => rfl
    | cons c t ih => simp [normalizeChar_idem c, ih]
  exact congrArg String.mk (h s.data)

theorem calculateBackoff_eval (a j : Nat) (ha : a ≤ 30) (hj : j ≤ 999) :
    Stt.calculateBackoff a j =
      min (Stt.baseBackoff * 2 ^ a) Stt.maxBackoff + (j : Int) * 1000000 := by
  have hpow0 : (0 : Int) < 2 ^ a := pow_pos (by norm_num) a
  have hp2 : (2 : Int) ^ a ≤ 1073741824 := by
    calc (2 : Int) ^ a ≤ 2 ^ 30 := pow_le_pow_right₀ (by norm_num) ha
    _ = 1073741824 := by norm_num
  have hjle : (j : Int) ≤ 999 := by exact_mod_cast hj
  have hj0 : (0 : Int) ≤ (j : Int) := Int.natCast_nonneg j
  have hmul2 : (6000000000 : Int) * 2 ^ a ≤ 6442450944000000000 := by nlinarith
  have hmul1 : (0 : Int) < 6000000000 * 2 ^ a := by positivity
  have hjmul : (j : Int) * 1000000 ≤ 999000000 := by nlinarith
  have hjmul0 : (0 : Int) ≤ (j : Int) * 1000000 := by positivity
  simp only [Stt.calculateBackoff, Stt.goShlOne, Stt.baseBackoff, Stt.maxBackoff]
  rw [if_neg (by omega : ¬ 64 ≤ a)]
  rw [wrap64_eq_self ((2 : Int) ^ a) (by linarith) (by linarith)]
  rw [wrap64_eq_self ((6000000000 : Int) * 2 ^ a) (by linarith) (by linarith)]
  rw [wrap64_eq_self ((j : Int) * 1000000) (by linarith) (by linarith)]
  by_cases h : (60000000000 : Int) < 6000000000 * 2 ^ a
  · rw [if_pos h, wrap64_eq_self _ (by linarith) (by linarith),
      min_eq_right (le_of_lt h)]
  · rw [if_neg h, wrap64_eq_self _ (by linarith) (by linarith),
      min_eq_left (le_of_not_lt h)]

/-- Claim C1: for attempt indices in the range the retry loop can pass
(and in fact for every attempt up to 30, below which the int64 duration
product does not overflow) and any jitter draw of rand.Intn(1000), the
delay lies between the capped exponential value and that value plus the
one-second jitter bound, and the delay is non-decreasing in the attempt
index while the un-capped value is still below the cap.  Amended from
the original claim, which quantified over every attempt index: for
attempts of 31 and beyond the int64 multiplication overflows and the
delay turns negative. -/
theorem backoff_bounds_amended (a j k : Nat) (ha : a ≤ 30) (hj : j ≤ 999)
    (hk : k ≤ 999) :
    (min (Stt.baseBackoff * 2 ^ a) Stt.maxBackoff ≤ Stt.calculateBackoff a j ∧
      Stt.calculateBackoff a j ≤
        min (Stt.baseBackoff * 2 ^ a) Stt.maxBackoff + 1000000000) ∧
    (Stt.baseBackoff * 2 ^ a < Stt.maxBackoff →
      Stt.calculateBackoff a j ≤ Stt.calculateBackoff (a + 1) k) := by
  have hjle : (j : Int) ≤ 999 := by exact_mod_cast hj
  have hj0 : (0 : Int) ≤ (j : Int) := Int.natCast_nonneg j
  have e1 := calculateBackoff_eval a j ha hj
  constructor
  · constructor
    · rw [e1]
      nlinarith
    · rw [e1]
      nlinarith
  · intro hcap
    simp only [Stt.baseBackoff, Stt.maxBackoff] at hcap
    have hlt : (2 : Int) ^ a < 10 := by linarith
    have ha3 : a ≤ 3 := by
      by_contra hc
      push_neg at hc
      have h16 : (16 : Int) ≤ 2 ^ a := by
        calc (16 : Int) = 2 ^ 4 := by norm_num
        _ ≤ 2 ^ a := pow_le_pow_right₀ (by norm_num) hc
      linarith
    rw [e1, calculateBackoff_eval (a + 1) k (by omega) hk]
    simp only [Stt.baseBackoff, Stt.maxBackoff]
    interval_cases a <;> norm_num [min_def] <;> omega

/-- Witness for C1 at attempt 2, jitter draws 500 and 0. -/
theorem backoff_bounds_amended_witness :
    ((2 : Nat) ≤ 30 ∧ (500 : Nat) ≤ 999 ∧ (0 : Nat) ≤ 999 ∧
      Stt.baseBackoff * 2 ^ 2 < Stt.maxBackoff) ∧
    (min (Stt.baseBackoff * 2 ^ 2) Stt.maxBackoff ≤ Stt.calculateBackoff 2 500 ∧
      Stt.calculateBackoff 2 500 ≤
        min (Stt.baseBackoff * 2 ^ 2) Stt.maxBackoff + 1000000000) ∧
    Stt.calculateBackoff 2 500 ≤ Stt.calculateBackoff 3 0 :=
  ⟨⟨by norm_num, by norm_num, by norm_num,
      by norm_num [Stt.baseBackoff, Stt.maxBackoff]⟩,
    (backoff_bounds_amended 2 500 0 (by norm_num) (by norm_num) (by norm_num)).1,
    (backoff_bounds_amended 2 500 0 (by norm_num) (by norm_num) (by norm_num)).2
      (by norm_num [Stt.baseBackoff, Stt.maxBackoff])⟩

/-- Counterexample for C1 as originally stated: at attempt index 31 the
int64 product baseBackoff * (1 << 31) overflows, the cap comparison
sees a negative value, and the returned delay is far below the claimed
lower bound min of the exponential value and the cap. -/
theorem backoff_overflow_counterexample :
    Stt.calculateBackoff 31 0 = -5561842185709551616 ∧
      Stt.calculateBackoff 31 0 < min (Stt.baseBackoff * 2 ^ 31) Stt.maxBackoff := by
  constructor
  · decide
  · decide

theorem sttLoop_succ (t : Transport) (fuel attempt : Nat)
    (le : Option Stt.LastErr) :
    Stt.getTranscriptLoop t (fuel + 1) attempt le =
      match t attempt with
      | .netError =>
        let r := Stt.getTranscriptLoop t fuel (attempt + 1) (some .netErr)
        (r.1, r.2 + 1)
      | .httpResp s body d =>
        if s = 200 then
          match d with
          | .readFailed => (.error .readBodyFailed, 1)
          | .decodeFailed => (.error .unmarshalFailed, 1)
          | .decoded resp => (Stt.extractTranscript body resp, 1)
        else if Stt.sttRetryableStatus s then
          let r := Stt.getTranscriptLoop t fuel (attempt + 1)
            (some (.apiStatus s body))
          (r.1, r.2 + 1)
        else
          (.error (.nonRetryableStatus s body), 1) := rfl

theorem sttLoop_all_retryable (t : Transport)
    (hall : ∀ i, sttRetryableOutcome (t i) = true) :
    ∀ fuel attempt le, Stt.getTranscriptLoop t (fuel + 1) attempt le =
      (.error (.allRetriesFailed (lastErrOfOutcome (t (attempt + fuel)))), fuel + 1) := by
  intro fuel
  induction fuel with
  | zero =>
    intro attempt le
    have hat := hall attempt
    cases hout : t attempt with
    | netError =>
      simp [Stt.getTranscriptLoop, hout, lastErrOfOutcome]
    | httpResp s body d =>
      rw [hout] at hat
      have hs : Stt.sttRetryableStatus s = true := hat
      have hs200 : s ≠ 200 := by
        intro he
        subst he
        simp [Stt.sttRetryableStatus] at hs
      simp [Stt.getTranscriptLoop, hout, hs200, hs, lastErrOfOutcome]
  | succ n ih =>
    intro attempt le
    have hat := hall attempt
    have hidx : attempt + 1 + n = attempt + (n + 1) := by omega
    cases hout : t attempt with
    | netError =>
      have h2 := ih (attempt + 1) (some .netErr)
      rw [hidx] at h2
      rw [sttLoop_succ, hout]
      simp only [h2]
    | httpResp s body d =>
      rw [hout] at hat
      have hs : Stt.sttRetryableStatus s = true := hat
      have hs200 : s ≠ 200 := by
        intro he
        subst he
        simp [Stt.sttRetryableStatus] at hs
      have h2 := ih (attempt + 1) (some (.apiStatus s body))
      rw [hidx] at h2
      rw [sttLoop_succ, hout]
      simp only [hs200, hs, if_false, if_true, ite_false, ite_true, h2]

theorem sttLoop_calls_pos (t : Transport) (fuel attempt : Nat)
    (le : Option Stt.LastErr) (h : 1 ≤ fuel) :
    1 ≤ (Stt.getTranscriptLoop t fuel attempt le).2 := by
  obtain ⟨n, rfl⟩ : ∃ n, fuel = n + 1 := ⟨fuel - 1, by omega⟩
  cases hout : t attempt with
  | netError => simp [Stt.getTranscriptLoop, hout]
  | httpResp s body d =>
    by_cases hs200 : s = 200
    · subst hs200
      cases d <;> simp [Stt.getTranscriptLoop, hout]
    · by_cases hr : Stt.sttRetryableStatus s = true
      · simp [Stt.getTranscriptLoop, hout, hs200, hr]
      · simp [Stt.getTranscriptLoop, hout, hs200, hr]

theorem capLoop_succ (t : Transport) (fuel : Nat) (st : Caption.LoopState) :
    Caption.captionLoop t (fuel + 1) st =
      match t st.calls with
      | .netError =>
        Caption.captionLoop t fuel
          { st with reqErr := true, resp := none, calls := st.calls + 1 }
      | .httpResp s _ d =>
        if s = 429 ∨ 500 ≤ s then
          Caption.captionLoop t fuel
            { st with reqErr := false, resp := some s, calls := st.calls + 1 }
        else if s ≠ 200 then
          (none, { st with reqErr := false, resp := some s, calls := st.calls + 1 })
        else
          match d with
          | .readFailed =>
            (some .decodeFailed,
              { st with reqErr := false, resp := some s, calls := st.calls + 1 })
          | .decodeFailed =>
            (some .decodeFailed,
              { st with reqErr := false, resp := some s, calls := st.calls + 1 })
          | .decoded r =>
            if Caption.emptyResp r then
              Caption.captionLoop t fuel
                { st with reqErr := false, resp := some s, geminiResp := r,
                          calls := st.calls + 1 }
            else
              (none, { st with reqErr := false, resp := some s, geminiResp := r,
                               calls := st.calls + 1 }) := rfl

theorem finishCaption_empty (identity : String) (st : Caption.LoopState)
    (h : Caption.emptyResp st.geminiResp = true) :
    Caption.finishCaption identity st = ⟨.err .emptyCaption, st.calls, none⟩ := by
  unfold Caption.finishCaption
  unfold Caption.emptyResp at h
  split at h
  · simp_all
  · split at h
    · simp_all
    · simp_all

theorem capLoop_calls_mono (t : Transport) :
    ∀ fuel st, st.calls ≤ (Caption.captionLoop t fuel st).2.calls := by
  intro fuel
  induction fuel with
  | zero => intro st; exact le_refl _
  | succ n ih =>
    intro st
    rw [capLoop_succ]
    split
    · exact le_trans (Nat.le_succ _) (ih { st with reqErr := true, resp := none, calls := st.calls + 1 })
    · rename_i s body d heq
      split
      · exact le_trans (Nat.le_succ _) (ih { st with reqErr := false, resp := some s, calls := st.calls + 1 })
      · split
        · exact Nat.le_succ _
        · split
          · exact Nat.le_succ _
          · exact Nat.le_succ _
          · rename_i r
            split
            · exact le_trans (Nat.le_succ _) (ih { st with reqErr := false, resp := some s, geminiResp := r, calls := st.calls + 1 })
            · exact Nat.le_succ _

theorem capLoop_calls_pos (t : Transport) (fuel : Nat) (st : Caption.LoopState)
    (h : 1 ≤ fuel) :
    st.calls + 1 ≤ (Caption.captionLoop t fuel st).2.calls := by
  obtain ⟨n, rfl⟩ : ∃ n, fuel = n + 1 := ⟨fuel - 1, by omega⟩
  rw [capLoop_succ]
  split
  · exact capLoop_calls_mono t n { st with reqErr := true, resp := none, calls := st.calls + 1 }
  · rename_i s body d heq
    split
    · exact capLoop_calls_mono t n { st with reqErr := false, resp := some s, calls := st.calls + 1 }
    · split
      · exact le_refl _
      · split
        · exact le_refl _
        · exact le_refl _
        · rename_i r
          split
          · exact capLoop_calls_mono t n { st with reqErr := false, resp := some s, geminiResp := r, calls := st.calls + 1 }
          · exact le_refl _

theorem captionLoop_all_retryable (t : Transport) (identity : String)
    (hall : ∀ i, capRetryableOutcome (t i) = true) :
    ∀ fuel st, ∃ st2, Caption.captionLoop t (fuel + 1) st = (none, st2) ∧
      st2.calls = st.calls + fuel + 1 ∧
      Caption.afterLoop identity st2 =
        ⟨capTerminalRes (t (st.calls + fuel)), st.calls + fuel + 1, none⟩ := by
  intro fuel
  induction fuel with
  | zero =>
    intro st
    have hat := hall st.calls
    rw [capLoop_succ]
    cases hout : t st.calls with
    | netError =>
      refine ⟨_, rfl, rfl, ?_⟩
      simp [Caption.afterLoop, capTerminalRes, hout]
    | httpResp s body d =>
      rw [hout] at hat
      simp only []
      by_cases h1 : s = 429 ∨ 500 ≤ s
      · have hs200 : s ≠ 200 := by omega
        rw [if_pos h1]
        refine ⟨_, rfl, rfl, ?_⟩
        simp [Caption.afterLoop, capTerminalRes, hout, hs200]
      · have hs200 : s = 200 := by
          by_contra hne
          simp [capRetryableOutcome, h1, hne] at hat
        subst hs200
        rw [if_neg h1, if_neg (by simp : ¬(200 : Nat) ≠ 200)]
        cases d with
        | readFailed => simp [capRetryableOutcome, h1] at hat
        | decodeFailed => simp [capRetryableOutcome, h1] at hat
        | decoded r =>
          have hemp : Caption.emptyResp r = true := by
            simpa [capRetryableOutcome, h1] using hat
          simp only []
          rw [if_pos hemp]
          refine ⟨_, rfl, rfl, ?_⟩
          rw [show Caption.afterLoop identity { reqErr := false, resp := some 200, geminiResp := r, calls := st.calls + 1 } = Caption.finishCaption identity { reqErr := false, resp := some 200, geminiResp := r, calls := st.calls + 1 } from by simp [Caption.afterLoop]]
          rw [finishCaption_empty identity _ hemp]
          simp [capTerminalRes, hout]
  | succ n ih =>
    intro st
    have hat := hall st.calls
    rw [capLoop_succ]
    have hidx : st.calls + 1 + n = st.calls + (n + 1) := by omega
    cases hout : t st.calls with
    | netError =>
      obtain ⟨st2, he, hc, ha⟩ :=
        ih { st with reqErr := true, resp := none, calls := st.calls + 1 }
      simp only [hidx] at hc ha
      refine ⟨st2, he, by omega, ?_⟩
      rw [ha]
    | httpResp s body d =>
      rw [hout] at hat
      simp only []
      by_cases h1 : s = 429 ∨ 500 ≤ s
      · rw [if_pos h1]
        obtain ⟨st2, he, hc, ha⟩ :=
          ih { st with reqErr := false, resp := some s, calls := st.calls + 1 }
        simp only [hidx] at hc ha
        refine ⟨st2, he, by omega, ?_⟩
        rw [ha]
      · have hs200 : s = 200 := by
          by_contra hne
          simp [capRetryableOutcome, h1, hne] at hat
        subst hs200
        rw [if_neg h1, if_neg (by simp : ¬(200 : Nat) ≠ 200)]
        cases d with
        | readFailed => simp [capRetryableOutcome, h1] at hat
        | decodeFailed => simp [capRetryableOutcome, h1] at hat
        | decoded r =>
          have hemp : Caption.emptyResp r = true := by
            simpa [capRetryableOutcome, h1] using hat
          simp only []
          rw [if_pos hemp]
          obtain ⟨st2, he, hc, ha⟩ :=
            ih { st with reqErr := false, resp := some 200, geminiResp := r, calls := st.calls + 1 }
          simp only [hidx] at hc ha
          refine ⟨st2, he, by omega, ?_⟩
          rw [ha]

/-- Claim C2 counterexample: with a stub transport that always returns
HTTP 500, the caption command processImage makes exactly maxRetries = 3
HTTP calls, not maxRetries + 1 = 4 as the claim states for the
transcribe/caption call: its loop is for range maxRetries.  The result
is still a terminal error carrying the last status. -/
theorem retry_count_counterexample :
    (Caption.processImage false false true ""
        (constTransport (.httpResp 500 "server error" .decodeFailed))).apiCalls =
      Caption.maxRetries ∧
    Caption.maxRetries + 1 = 4 ∧
    (Caption.processImage false false true ""
        (constTransport (.httpResp 500 "server error" .decodeFailed))).apiCalls ≠
      Caption.maxRetries + 1 ∧
    (Caption.processImage false false true ""
        (constTransport (.httpResp 500 "server error" .decodeFailed))).res =
      .err (.statusError 500) := by
  refine ⟨rfl, rfl, by decide, rfl⟩

/-- Claim C2: when every attempt yields a retryable outcome, the stt
command getTranscript makes exactly maxRetries + 1 = 5 HTTP calls and
returns a terminal error carrying the failure recorded on the last
call, never a success; the caption command processImage makes exactly
maxRetries = 3 calls (its loop runs maxRetries iterations, one fewer
than the claim states) and likewise ends in a terminal error derived
from the last call, writing nothing.  Amended only in the caption call
count. -/
theorem retry_exhaustion_amended (t1 t2 : Transport) (identity : String)
    (h1 : ∀ i, sttRetryableOutcome (t1 i) = true)
    (h2 : ∀ i, capRetryableOutcome (t2 i) = true) :
    Stt.getTranscript t1 =
      (.error (.allRetriesFailed (lastErrOfOutcome (t1 Stt.maxRetries))),
        Stt.maxRetries + 1) ∧
    Caption.processImage false false true identity t2 =
      ⟨capTerminalRes (t2 (Caption.maxRetries - 1)), Caption.maxRetries, none⟩ := by
  constructor
  · have h := sttLoop_all_retryable t1 h1 4 0 none
    simpa [Stt.getTranscript, Stt.maxRetries] using h
  · obtain ⟨st2, he, hc, ha⟩ :=
      captionLoop_all_retryable t2 identity h2 2 ⟨false, none, Caption.zeroGemini, 0⟩
    norm_num at he hc ha
    unfold Caption.processImage
    simp only [Caption.maxRetries]
    rw [he]
    simp only []
    rw [ha]
    norm_num

/-- Witness for C2 with the constant HTTP 500 stub on both commands. -/
theorem retry_exhaustion_amended_witness :
    ((∀ i, sttRetryableOutcome
        (constTransport (.httpResp 500 "server error" .decodeFailed) i) = true) ∧
      (∀ i, capRetryableOutcome
        (constTransport (.httpResp 500 "server error" .decodeFailed) i) = true)) ∧
    Stt.getTranscript (constTransport (.httpResp 500 "server error" .decodeFailed)) =
      (.error (.allRetriesFailed (lastErrOfOutcome
        (constTransport (.httpResp 500 "server error" .decodeFailed) Stt.maxRetries))),
        Stt.maxRetries + 1) ∧
    Caption.processImage false false true ""
        (constTransport (.httpResp 500 "server error" .decodeFailed)) =
      ⟨capTerminalRes (constTransport (.httpResp 500 "server error" .decodeFailed)
          (Caption.maxRetries - 1)),
        Caption.maxRetries, none⟩ :=
  ⟨⟨fun _ => rfl, fun _ => rfl⟩,
    retry_exhaustion_amended
      (constTransport (.httpResp 500 "server error" .decodeFailed))
      (constTransport (.httpResp 500 "server error" .decodeFailed)) ""
      (fun _ => rfl) (fun _ => rfl)⟩

theorem finishCaption_apiCalls (identity : String) (st : Caption.LoopState) :
    (Caption.finishCaption identity st).apiCalls = st.calls := by
  unfold Caption.finishCaption
  split
  · rfl
  · split
    · rfl
    · split
      · rfl
      · rfl

theorem afterLoop_apiCalls (identity : String) (st : Caption.LoopState) :
    (Caption.afterLoop identity st).apiCalls = st.calls := by
  unfold Caption.afterLoop
  split
  · rfl
  · split
    · split
      · rfl
      · exact finishCaption_apiCalls identity st
    · exact finishCaption_apiCalls identity st

theorem processImage_apiCalls (force txtExists readOk : Bool) (identity : String)
    (t : Transport) (hskip : (!force && txtExists) = false) (hread : readOk = true) :
    (Caption.processImage force txtExists readOk identity t).apiCalls =
      (Caption.captionLoop t Caption.maxRetries
        ⟨false, none, Caption.zeroGemini, 0⟩).2.calls := by
  unfold Caption.processImage
  rw [hskip, hread]
  rw [if_neg Bool.false_ne_true]
  rw [if_neg (by simp : ¬((!true) = true))]
  cases h : Caption.captionLoop t Caption.maxRetries ⟨false, none, Caption.zeroGemini, 0⟩ with
  | mk oe st =>
    cases oe
    · simp [afterLoop_apiCalls]
    · rfl

/-- Claim C3 counterexample: a stub transport always returning HTTP 501
(a 5xx status) makes the stt command getTranscript return a fatal
non-retryable error after exactly one call: its retryable switch lists
only 429, 500, 502, 503 and 504, so not every 5xx status is
retryable. -/
theorem retryable_5xx_counterexample :
    Stt.getTranscript (constTransport (.httpResp 501 "not implemented" .decodeFailed)) =
      (.error (.nonRetryableStatus 501 "not implemented"), 1) := rfl

/-- Claim C3: the caption command retries every response with status 429
or at least 500 (a second HTTP call follows); the stt command retries
exactly the statuses 429, 500, 502, 503 and 504, and for every other
non-200 status, the remaining 5xx codes included, it returns the fatal
non-retryable-status error after exactly one HTTP call.  Amended from
the original claim, which stated that both clients retry every status
in the whole 5xx range. -/
theorem retryable_status_amended (s : Nat) (b : String) (d : BodyDecode)
    (t1 t2 : Transport) (identity : String)
    (h1 : t1 0 = .httpResp s b d) (h2 : t2 0 = .httpResp s b d) :
    ((s = 429 ∨ s = 500 ∨ s = 502 ∨ s = 503 ∨ s = 504) →
      2 ≤ (Stt.getTranscript t1).2) ∧
    ((s = 429 ∨ 500 ≤ s) →
      2 ≤ (Caption.processImage false false true identity t2).apiCalls) ∧
    (s ≠ 200 → ¬(s = 429 ∨ s = 500 ∨ s = 502 ∨ s = 503 ∨ s = 504) →
      Stt.getTranscript t1 = (.error (.nonRetryableStatus s b), 1)) := by
  refine ⟨?_, ?_, ?_⟩
  · intro hst
    have hs200 : s ≠ 200 := by omega
    have hret : Stt.sttRetryableStatus s = true := by
      rcases hst with rfl | rfl | rfl | rfl | rfl <;> rfl
    unfold Stt.getTranscript
    rw [show Stt.maxRetries + 1 = 4 + 1 from rfl, sttLoop_succ, h1]
    simp only []
    rw [if_neg hs200, if_pos hret]
    have hp := sttLoop_calls_pos t1 4 1 (some (.apiStatus s b)) (by norm_num)
    show 2 ≤ (Stt.getTranscriptLoop t1 4 1 (some (Stt.LastErr.apiStatus s b))).2 + 1
    omega
  · intro hcap
    rw [processImage_apiCalls false false true identity t2 rfl rfl]
    rw [show Caption.maxRetries = 2 + 1 from rfl, capLoop_succ]
    simp only []
    rw [h2]
    simp only []
    rw [if_pos hcap]
    exact capLoop_calls_pos t2 2 ⟨false, some s, Caption.zeroGemini, 0 + 1⟩ (by norm_num)
  · intro hs200 hnr
    have hret : Stt.sttRetryableStatus s = false := by
      push_neg at hnr
      simp [Stt.sttRetryableStatus]
      omega
    unfold Stt.getTranscript
    rw [show Stt.maxRetries + 1 = 4 + 1 from rfl, sttLoop_succ, h1]
    simp only []
    rw [if_neg hs200, if_neg (by simp [hret])]

/-- Witness for C3 at status 503, retryable for both commands, and at
status 505, a 5xx status the stt command rejects fatally after one
call. -/
theorem retryable_status_amended_witness :
    2 ≤ (Stt.getTranscript
      (constTransport (.httpResp 503 "overloaded" .decodeFailed))).2 ∧
    2 ≤ (Caption.processImage false false true ""
      (constTransport (.httpResp 503 "overloaded" .decodeFailed))).apiCalls ∧
    Stt.getTranscript (constTransport (.httpResp 505 "version" .decodeFailed)) =
      (.error (.nonRetryableStatus 505 "version"), 1) :=
  ⟨(retryable_status_amended 503 "overloaded" .decodeFailed
      (constTransport (.httpResp 503 "overloaded" .decodeFailed))
      (constTransport (.httpResp 503 "overloaded" .decodeFailed)) "" rfl rfl).1
      (by norm_num),
    (retryable_status_amended 503 "overloaded" .decodeFailed
      (constTransport (.httpResp 503 "overloaded" .decodeFailed))
      (constTransport (.httpResp 503 "overloaded" .decodeFailed)) "" rfl rfl).2.1
      (by norm_num),
    (retryable_status_amended 505 "version" .decodeFailed
      (constTransport (.httpResp 505 "version" .decodeFailed))
      (constTransport (.httpResp 505 "version" .decodeFailed)) "" rfl rfl).2.2
      (by norm_num) (by omega)⟩

theorem extractCandidates_noContent (b : String) (r : Gemini.GeminiResponse)
    (hmiss : r.candidates = [] ∨
      ∃ c cs, r.candidates = c :: cs ∧ c.content.parts = []) :
    Stt.extractCandidates b r = .error (.noContent b) := by
  rcases hmiss with hnil | ⟨c, cs, hc, hp2⟩
  · simp [Stt.extractCandidates, hnil]
  · simp [Stt.extractCandidates, hc, hp2]

theorem extractTranscript_noContent (b : String) (r : Gemini.GeminiResponse)
    (hpf : ∀ pf, r.promptFeedback = some pf → pf.blockReason = "")
    (hmiss : r.candidates = [] ∨
      ∃ c cs, r.candidates = c :: cs ∧ c.content.parts = []) :
    Stt.extractTranscript b r = .error (.noContent b) := by
  unfold Stt.extractTranscript
  cases hp : r.promptFeedback with
  | none => exact extractCandidates_noContent b r hmiss
  | some pf =>
    have hbr := hpf pf hp
    simp only []
    rw [if_neg (by simp [hbr])]
    exact extractCandidates_noContent b r hmiss

theorem emptyResp_of_missing (r : Gemini.GeminiResponse)
    (hmiss : r.candidates = [] ∨
      ∃ c cs, r.candidates = c :: cs ∧ c.content.parts = []) :
    Caption.emptyResp r = true := by
  rcases hmiss with hnil | ⟨c, cs, hc, hp2⟩
  · simp [Caption.emptyResp, hnil]
  · simp [Caption.emptyResp, hc, hp2]

/-- Claim C4 counterexample: a stub transport that always returns HTTP
200 with a decoded payload missing the candidate field makes the stt
command getTranscript return a fatal no-content error after exactly one
call, with no retry. -/
theorem empty_payload_counterexample :
    Stt.getTranscript
        (constTransport (.httpResp 200 "empty payload" (.decoded ⟨[], none⟩))) =
      (.error (.noContent "empty payload"), 1) := rfl

/-- Claim C4: when a 200 response decodes to a payload missing the
expected candidate or parts field, the caption command classifies the
attempt as retryable and makes another HTTP call, while the stt command
returns a fatal no-content error after that single call.  Amended from
the original claim, which stated both remote clients retry such a
response. -/
theorem empty_payload_amended (b : String) (r : Gemini.GeminiResponse)
    (t1 t2 : Transport) (identity : String)
    (h1 : t1 0 = .httpResp 200 b (.decoded r))
    (h2 : t2 0 = .httpResp 200 b (.decoded r))
    (hpf : ∀ pf, r.promptFeedback = some pf → pf.blockReason = "")
    (hmiss : r.candidates = [] ∨
      ∃ c cs, r.candidates = c :: cs ∧ c.content.parts = []) :
    Stt.getTranscript t1 = (.error (.noContent b), 1) ∧
    2 ≤ (Caption.processImage false false true identity t2).apiCalls := by
  constructor
  · unfold Stt.getTranscript
    rw [show Stt.maxRetries + 1 = 4 + 1 from rfl, sttLoop_succ, h1]
    simp only []
    rw [if_pos trivial, extractTranscript_noContent b r hpf hmiss]
  · have hemp : Caption.emptyResp r = true := emptyResp_of_missing r hmiss
    rw [processImage_apiCalls false false true identity t2 rfl rfl]
    rw [show Caption.maxRetries = 2 + 1 from rfl, capLoop_succ]
    simp only []
    rw [h2]
    simp only []
    rw [if_neg (by omega : ¬((200 : Nat) = 429 ∨ 500 ≤ 200))]
    rw [if_neg (by omega : ¬((200 : Nat) ≠ 200))]
    rw [if_pos hemp]
    exact capLoop_calls_pos t2 2 ⟨false, some 200, r, 0 + 1⟩ (by norm_num)

/-- Witness for C4 with a decoded payload that has no candidates. -/
theorem empty_payload_amended_witness :
    Stt.getTranscript
        (constTransport (.httpResp 200 "no candidates" (.decoded ⟨[], none⟩))) =
      (.error (.noContent "no candidates"), 1) ∧
    2 ≤ (Caption.processImage false false true ""
      (constTransport (.httpResp 200 "no candidates" (.decoded ⟨[], none⟩)))).apiCalls :=
  empty_payload_amended "no candidates" ⟨[], none⟩
    (constTransport (.httpResp 200 "no candidates" (.decoded ⟨[], none⟩)))
    (constTransport (.httpResp 200 "no candidates" (.decoded ⟨[], none⟩))) ""
    rfl rfl (fun _ h => nomatch h) (Or.inl rfl)

/-- Claim C5 counterexample: the caption command cannot see
promptFeedback (its response struct has no such field), so a response
explicitly blocked by the safety layer (blockReason SAFETY, no
candidates) is treated as an empty response: it is retried three times
and reported as a generic empty-caption error that does not name the
block reason, instead of a distinct fatal error without retry. -/
theorem blocked_response_counterexample :
    Caption.processImage false false true ""
        (constTransport (.httpResp 200 "blocked" (.decoded (blockedGemini "SAFETY")))) =
      ⟨.err .emptyCaption, 3, none⟩ := rfl

/-- Claim C5: the stt command returns the distinct fatal blocked error
naming the block reason after a single call and without retrying
whenever the decoded 200 payload carries a non-empty
promptFeedback.blockReason; the caption command, whose response struct
lacks the promptFeedback field, instead retries such responses as
empty ones and ends with a generic empty-caption error.  Amended from
the original claim, which stated this for both remote clients. -/
theorem blocked_response_amended (b : String) (r : Gemini.GeminiResponse)
    (pf : Gemini.PromptFeedback) (t1 t2 : Transport) (identity : String)
    (h1 : t1 0 = .httpResp 200 b (.decoded r))
    (hpf : r.promptFeedback = some pf) (hbr : pf.blockReason ≠ "")
    (hall : ∀ i, t2 i = .httpResp 200 b (.decoded r))
    (hc : r.candidates = []) :
    Stt.getTranscript t1 = (.error (.blocked pf.blockReason), 1) ∧
    Caption.processImage false false true identity t2 =
      ⟨.err .emptyCaption, Caption.maxRetries, none⟩ := by
  constructor
  · unfold Stt.getTranscript
    rw [show Stt.maxRetries + 1 = 4 + 1 from rfl, sttLoop_succ, h1]
    simp only []
    rw [if_pos trivial]
    unfold Stt.extractTranscript
    rw [hpf]
    simp only []
    rw [if_pos hbr]
  · have hret : ∀ i, capRetryableOutcome (t2 i) = true := by
      intro i
      rw [hall i]
      simp [capRetryableOutcome, Caption.emptyResp, hc]
    obtain ⟨st2, he, hcalls, ha⟩ :=
      captionLoop_all_retryable t2 identity hret 2 ⟨false, none, Caption.zeroGemini, 0⟩
    norm_num at he hcalls ha
    unfold Caption.processImage
    simp only [Caption.maxRetries]
    rw [he]
    simp only []
    rw [ha, hall 2]
    simp [capTerminalRes]

/-- Witness for C5 with a blocked decoded payload on both commands. -/
theorem blocked_response_amended_witness :
    Stt.getTranscript
        (constTransport (.httpResp 200 "blocked" (.decoded (blockedGemini "SAFETY")))) =
      (.error (.blocked ((blockedGemini "SAFETY").promptFeedback.get rfl).blockReason), 1) ∧
    Caption.processImage false false true "trigger"
        (constTransport (.httpResp 200 "blocked" (.decoded (blockedGemini "SAFETY")))) =
      ⟨.err .emptyCaption, Caption.maxRetries, none⟩ :=
  blocked_response_amended "blocked" (blockedGemini "SAFETY") ⟨"SAFETY", []⟩
    (constTransport (.httpResp 200 "blocked" (.decoded (blockedGemini "SAFETY"))))
    (constTransport (.httpResp 200 "blocked" (.decoded (blockedGemini "SAFETY"))))
    "trigger" rfl rfl (by decide) (fun _ => rfl) rfl

theorem finishCaption_ok (identity : String) (st : Caption.LoopState) (w : String)
    (h : (Caption.finishCaption identity st).res = .ok w) :
    ∃ raw, raw ≠ "" ∧
      w = if identity ≠ "" then identity ++ ", " ++ trimSpace raw else trimSpace raw := by
  unfold Caption.finishCaption at h
  split at h
  · exact absurd h (by simp)
  · split at h
    · exact absurd h (by simp)
    · rename_i c cs heq1 p ps heq2
      split at h
      · exact absurd h (by simp)
      · rename_i hne
        refine ⟨p.text, hne, ?_⟩
        simp only [] at h
        exact (Caption.CapRes.ok.inj h).symm

theorem afterLoop_ok (identity : String) (st : Caption.LoopState) (w : String)
    (h : (Caption.afterLoop identity st).res = .ok w) :
    ∃ raw, raw ≠ "" ∧
      w = if identity ≠ "" then identity ++ ", " ++ trimSpace raw else trimSpace raw := by
  unfold Caption.afterLoop at h
  split at h
  · exact absurd h (by simp)
  · split at h
    · split at h
      · exact absurd h (by simp)
      · exact finishCaption_ok identity st w h
    · exact finishCaption_ok identity st w h

/-- Claim C6 counterexample: the stt command returns a successful result
whose text is the empty string when the API answers 200 with one
candidate whose first part text is empty: only the presence of
candidates and parts is checked, not the text content. -/
theorem empty_success_counterexample :
    Stt.getTranscript (constTransport (.httpResp 200 "resp" (.decoded (textGemini "")))) =
      (.ok "", 1) := rfl

/-- Claim C6: the caption command never returns a successful result
built from an empty extracted candidate text: every success carries a
raw candidate text that is non-empty (the final artifact is that text
trimmed, with the identity prefix when set), since an empty text is
retried and, after exhaustion, reported as an error.  Amended from the
original claim, which asserted this for both commands: the stt command
checks only that candidates and parts are present and can succeed with
an empty text string. -/
theorem caption_success_nonempty_amended (force txtExists readOk : Bool)
    (identity : String) (t : Transport) (w : String)
    (h : (Caption.processImage force txtExists readOk identity t).res = .ok w) :
    ∃ raw, raw ≠ "" ∧
      w = if identity ≠ "" then identity ++ ", " ++ trimSpace raw else trimSpace raw := by
  unfold Caption.processImage at h
  split at h
  · exact absurd h (by simp)
  · split at h
    · exact absurd h (by simp)
    · split at h
      · exact absurd h (by simp)
      · exact afterLoop_ok identity _ w h

/-- Witness for C6: a successful caption run with text red hat. -/
theorem caption_success_nonempty_witness :
    (Caption.processImage false false true ""
        (constTransport (.httpResp 200 "resp" (.decoded (textGemini "red hat"))))).res =
      .ok "red hat" ∧
    ∃ raw, raw ≠ "" ∧
      "red hat" = if ("" : String) ≠ "" then "" ++ ", " ++ trimSpace raw else trimSpace raw :=
  ⟨by decide, caption_success_nonempty_amended false false true ""
    (constTransport (.httpResp 200 "resp" (.decoded (textGemini "red hat"))))
    "red hat" (by decide)⟩

/-- Claim C7: for every HTTP status that is neither 200 nor 429 nor in
the 5xx range (HTTP statuses are at most 599), both remote clients make
exactly one HTTP call and return a fatal, distinctly-tagged error: the
stt command the non-retryable-status error, the caption command the
status error, with nothing written.  Confirmed. -/
theorem nonretryable_status_fatal (s : Nat) (b : String) (d : BodyDecode)
    (t1 t2 : Transport) (identity : String)
    (hs200 : s ≠ 200) (hs429 : s ≠ 429) (h5xx : ¬(500 ≤ s ∧ s ≤ 599))
    (hmax : s ≤ 599) (h1 : t1 0 = .httpResp s b d) (h2 : t2 0 = .httpResp s b d) :
    Stt.getTranscript t1 = (.error (.nonRetryableStatus s b), 1) ∧
    Caption.processImage false false true identity t2 =
      ⟨.err (.statusError s), 1, none⟩ := by
  have hlt : s < 500 := by omega
  constructor
  · have hret : Stt.sttRetryableStatus s = false := by
      simp [Stt.sttRetryableStatus]
      omega
    unfold Stt.getTranscript
    rw [show Stt.maxRetries + 1 = 4 + 1 from rfl, sttLoop_succ, h1]
    simp only []
    rw [if_neg hs200, if_neg (by simp [hret])]
  · unfold Caption.processImage
    rw [if_neg (by decide : ¬((!false && false) = true))]
    rw [if_neg (by decide : ¬((!true) = true))]
    rw [show Caption.maxRetries = 2 + 1 from rfl, capLoop_succ]
    simp only []
    rw [h2]
    simp only []
    rw [if_neg (by omega : ¬(s = 429 ∨ 500 ≤ s))]
    rw [if_pos hs200]
    simp only []
    unfold Caption.afterLoop
    rw [if_neg (by simp : ¬(false = true))]
    simp only []
    rw [if_pos hs200]

/-- Witness for C7 at status 401. -/
theorem nonretryable_status_fatal_witness :
    ((401 : Nat) ≠ 200 ∧ (401 : Nat) ≠ 429 ∧ ¬(500 ≤ 401 ∧ 401 ≤ 599) ∧
      (401 : Nat) ≤ 599) ∧
    Stt.getTranscript (constTransport (.httpResp 401 "unauthorized" .decodeFailed)) =
      (.error (.nonRetryableStatus 401 "unauthorized"), 1) ∧
    Caption.processImage false false true ""
        (constTransport (.httpResp 401 "unauthorized" .decodeFailed)) =
      ⟨.err (.statusError 401), 1, none⟩ :=
  ⟨⟨by decide, by decide, by decide, by decide⟩,
    nonretryable_status_fatal 401 "unauthorized" .decodeFailed
      (constTransport (.httpResp 401 "unauthorized" .decodeFailed))
      (constTransport (.httpResp 401 "unauthorized" .decodeFailed)) ""
      (by decide) (by decide) (by decide) (by decide) rfl rfl⟩

theorem finishCaption_written (identity : String) (st : Caption.LoopState) :
    (Caption.finishCaption identity st).written =
      match (Caption.finishCaption identity st).res with
      | .ok w => some w
      | _ => none := by
  unfold Caption.finishCaption
  split
  · rfl
  · split
    · rfl
    · split
      · rfl
      · rfl

theorem afterLoop_written (identity : String) (st : Caption.LoopState) :
    (Caption.afterLoop identity st).written =
      match (Caption.afterLoop identity st).res with
      | .ok w => some w
      | _ => none := by
  unfold Caption.afterLoop
  split
  · rfl
  · split
    · split
      · rfl
      · exact finishCaption_written identity st
    · exact finishCaption_written identity st

theorem processImage_written (force txtExists readOk : Bool) (identity : String)
    (t : Transport) :
    (Caption.processImage force txtExists readOk identity t).written =
      match (Caption.processImage force txtExists readOk identity t).res with
      | .ok w => some w
      | _ => none := by
  unfold Caption.processImage
  split
  · rfl
  · split
    · rfl
    · split
      · rfl
      · exact afterLoop_written identity _

theorem sttProcessFile_written (force txtExists readOk : Bool) (t : Transport) :
    (Stt.sttProcessFile force txtExists readOk t).written =
      match (Stt.sttProcessFile force txtExists readOk t).res with
      | .ok w => some w
      | _ => none := by
  unfold Stt.sttProcessFile
  split
  · rfl
  · split
    · rfl
    · split
      · rfl
      · rfl

theorem finishCaption_ne_skipped (identity : String) (st : Caption.LoopState) :
    (Caption.finishCaption identity st).res ≠ .skipped := by
  unfold Caption.finishCaption
  split
  · simp
  · split
    · simp
    · split
      · simp
      · simp

theorem afterLoop_ne_skipped (identity : String) (st : Caption.LoopState) :
    (Caption.afterLoop identity st).res ≠ .skipped := by
  unfold Caption.afterLoop
  split
  · simp
  · split
    · split
      · simp
      · exact finishCaption_ne_skipped identity st
    · exact finishCaption_ne_skipped identity st

theorem processImage_skip (ro : Bool) (identity : String) (t : Transport) :
    Caption.processImage false true ro identity t = ⟨.skipped, 0, none⟩ := rfl

theorem sttProcessFile_skip (ro : Bool) (t : Transport) :
    Stt.sttProcessFile false true ro t = ⟨.skipped, 0, none⟩ := rfl

theorem processImage_skipped_exists (e ro : Bool) (identity : String) (t : Transport)
    (h : (Caption.processImage false e ro identity t).res = .skipped) : e = true := by
  cases e
  · exfalso
    unfold Caption.processImage at h
    rw [if_neg (by decide : ¬((!false && false) = true))] at h
    split at h
    · simp at h
    · split at h
      · simp at h
      · exact afterLoop_ne_skipped identity _ h
  · rfl

theorem runItem_second_skipped (identity : String) (it : DirItem)
    (h : okOrSkipped (captionRunItem false identity it).1.res = true) :
    ((captionRunItem false identity it).2).txtExists = true := by
  rcases hres : (Caption.processImage false it.txtExists it.readOk identity it.transport).res with _ | w | e
  · have he := processImage_skipped_exists it.txtExists it.readOk identity it.transport hres
    simp [captionRunItem, he]
  · have hw := processImage_written false it.txtExists it.readOk identity it.transport
    rw [hres] at hw
    simp [captionRunItem, hw]
  · exfalso
    unfold captionRunItem at h
    simp only [] at h
    rw [hres] at h
    simp [okOrSkipped] at h

theorem runItem_skip (identity : String) (it : DirItem) (he : it.txtExists = true) :
    captionRunItem false identity it = (⟨.skipped, 0, none⟩, it) := by
  unfold captionRunItem
  obtain ⟨e, ro, tr⟩ := it
  simp only [] at he
  subst he
  simp [processImage_skip]

theorem batch_second_run (identity : String) :
    ∀ items : List DirItem,
      (∀ o ∈ (captionRun false identity items).1, okOrSkipped o.res = true) →
      totalCalls (captionRun false identity (captionRun false identity items).2).1 = 0 ∧
      ∀ o ∈ (captionRun false identity (captionRun false identity items).2).1,
        o.res = Caption.CapRes.skipped := by
  intro items
  induction items with
  | nil =>
    intro _
    exact ⟨rfl, by simp [captionRun]⟩
  | cons it its ih =>
    intro h
    have hhead : okOrSkipped (captionRunItem false identity it).1.res = true := by
      apply h
      simp [captionRun]
    have htail : ∀ o ∈ (captionRun false identity its).1, okOrSkipped o.res = true := by
      intro o ho
      apply h
      simp [captionRun] at ho ⊢
      exact Or.inr ho
    obtain ⟨ihc, ihs⟩ := ih htail
    have hex := runItem_second_skipped identity it hhead
    have hskip := runItem_skip identity ((captionRunItem false identity it).2) hex
    constructor
    · simp only [captionRun, List.map_cons, totalCalls, List.sum_cons] at ihc ⊢
      rw [hskip]
      simpa [totalCalls, captionRun] using ihc
    · intro o ho
      simp only [captionRun, List.map_cons, List.mem_cons] at ho
      rcases ho with rfl | ho
      · rw [hskip]
      · exact ihs o (by simpa [captionRun] using ho)

/-- Claim C8 counterexample: a directory with one item whose txt file
does not exist and whose transport always answers HTTP 500 makes the
first run fail for that item without writing an artifact; the second
run over the resulting directory therefore performs 3 further API
calls, not zero, although nothing outside the runs changed. -/
theorem batch_idempotent_counterexample :
    totalCalls (captionRun false ""
        ((captionRun false ""
          [⟨false, true, constTransport (.httpResp 500 "server error" .decodeFailed)⟩]).2)).1 = 3 ∧
    (3 : Nat) ≠ 0 :=
  ⟨rfl, by decide⟩

/-- Claim C8: with force unset, an item whose sibling txt artifact
already exists is marked skipped with zero API calls, in both the
caption and the stt per-item drivers; consequently, when every item of
a first caption batch run ended skipped or successful, a second run
over the resulting directory performs zero API calls and marks every
item skipped.  Amended with that proviso: after a first run containing
failed items the second run retries them, so it is not free in
general. -/
theorem batch_skip_idempotent_amended (identity : String) (items : List DirItem)
    (ro : Bool) (t1 t2 : Transport)
    (h : ∀ o ∈ (captionRun false identity items).1, okOrSkipped o.res = true) :
    Caption.processImage false true ro identity t2 = ⟨.skipped, 0, none⟩ ∧
    Stt.sttProcessFile false true ro t1 = ⟨.skipped, 0, none⟩ ∧
    totalCalls (captionRun false identity (captionRun false identity items).2).1 = 0 ∧
    ∀ o ∈ (captionRun false identity (captionRun false identity items).2).1,
      o.res = Caption.CapRes.skipped := by
  obtain ⟨hc, hs⟩ := batch_second_run identity items h
  exact ⟨processImage_skip ro identity t2, sttProcessFile_skip ro t1, hc, hs⟩

/-- Witness for C8: one item already has its txt artifact, the other
succeeds on the first call; the second run is free and all skipped. -/
theorem batch_skip_idempotent_amended_witness :
    (∀ o ∈ (captionRun false ""
        [⟨true, true, constTransport (.httpResp 500 "server error" .decodeFailed)⟩,
         ⟨false, true, constTransport (.httpResp 200 "resp" (.decoded (textGemini "red hat")))⟩]).1,
      okOrSkipped o.res = true) ∧
    (Caption.processImage false true true ""
        (constTransport (.httpResp 200 "resp" (.decoded (textGemini "red hat")))) =
      ⟨.skipped, 0, none⟩ ∧
    Stt.sttProcessFile false true true
        (constTransport (.httpResp 200 "resp" (.decoded (textGemini "red hat")))) =
      ⟨.skipped, 0, none⟩ ∧
    totalCalls (captionRun false ""
      ((captionRun false ""
        [⟨true, true, constTransport (.httpResp 500 "server error" .decodeFailed)⟩,
         ⟨false, true, constTransport (.httpResp 200 "resp" (.decoded (textGemini "red hat")))⟩]).2)).1 = 0 ∧
    ∀ o ∈ (captionRun false ""
      ((captionRun false ""
        [⟨true, true, constTransport (.httpResp 500 "server error" .decodeFailed)⟩,
         ⟨false, true, constTransport (.httpResp 200 "resp" (.decoded (textGemini "red hat")))⟩]).2)).1,
      o.res = Caption.CapRes.skipped) :=
  ⟨by decide,
    batch_skip_idempotent_amended ""
      [⟨true, true, constTransport (.httpResp 500 "server error" .decodeFailed)⟩,
       ⟨false, true, constTransport (.httpResp 200 "resp" (.decoded (textGemini "red hat")))⟩]
      true
      (constTransport (.httpResp 200 "resp" (.decoded (textGemini "red hat"))))
      (constTransport (.httpResp 200 "resp" (.decoded (textGemini "red hat"))))
      (by decide)⟩

/-- Claim C9: for both the caption and the stt per-item drivers, the
sibling txt artifact content is written exactly when the final result
is a success, and then it is the successful content itself: skipped
items and every failure leave nothing on disk.  Confirmed. -/
theorem artifact_only_on_success (force txtExists readOk : Bool) (identity : String)
    (t1 t2 : Transport) :
    (Caption.processImage force txtExists readOk identity t2).written =
      (match (Caption.processImage force txtExists readOk identity t2).res with
        | .ok w => some w
        | _ => none) ∧
    (Stt.sttProcessFile force txtExists readOk t1).written =
      (match (Stt.sttProcessFile force txtExists readOk t1).res with
        | .ok w => some w
        | _ => none) :=
  ⟨processImage_written force txtExists readOk identity t2,
    sttProcessFile_written force txtExists readOk t1⟩
